import Mathlib

/-!
Shallow embedding of the Monstercat utility layer of this repository
(`src/utils/mcutils.py`) together with proofs about its behaviour.

Python is modelled as follows: machine integers are `Nat`/`Int` (Python ints
are unbounded, so no wrap-around is needed), floats are rationals (`Rat`;
every finite IEEE double is a rational and the only float operation the code
performs is `round`, which is exact on the represented value), strings are
Lean `String`s restricted to the ASCII fragment the code manipulates
(Python's `\d`, `\s` and `str.lower` are Unicode-aware; the embedding models
their ASCII behaviour, which is the fragment all inputs in the claims live
in), and fallible code returns `Except PyError`.
-/

/-- The Python exceptions raised by the modelled code, with the exact
interpreter or source message. -/
inductive PyError where
  | valueError (msg : String)
  | typeError (msg : String)
  | attributeError (msg : String)
  | indexError (msg : String)
deriving DecidableEq

/-- Python list indexing `xs[i]`: raises `IndexError` past the end. -/
def listGet {α : Type} : List α → Nat → Except PyError α
  | [], _ => .error (.indexError "list index out of range")
  | x :: _, 0 => .ok x
  | _ :: xs, n + 1 => listGet xs n

/-- Python's `\s` on the ASCII range (`str` patterns also accept some Unicode
spaces; none occur in the modelled data). -/
def pyWs (c : Char) : Bool :=
  c == ' ' || c == '\t' || c == '\n' || c == '\r' || c == '\x0b' || c == '\x0c'

/-- Value of a list of decimal digit characters, most significant first. -/
def digitsVal (cs : List Char) : Nat :=
  cs.foldl (fun a c => a * 10 + (c.toNat - 48)) 0

/-- Python `int(text)` for the non-negative decimal literals this code feeds
it: surrounding whitespace is stripped (so `int("34\n") = 34`), then the
digits are read.  (Real `int()` also handles signs and raises on garbage;
every call site below only reaches it with regex-vetted digit strings.) -/
def pyIntL (cs : List Char) : Nat :=
  digitsVal (((cs.dropWhile pyWs).reverse.dropWhile pyWs).reverse)

/-- Python `text.split(':')` on a character list (accumulator of the current
field, reversed). -/
def splitColonAux : List Char → List Char → List (List Char)
  | [], acc => [acc.reverse]
  | c :: cs, acc => if c == ':' then acc.reverse :: splitColonAux cs [] else splitColonAux cs (c :: acc)

/-- Python `text.split(':')`. -/
def splitColon (cs : List Char) : List (List Char) :=
  splitColonAux cs []

/-- `DURATION_REGEX.match(dur)` (mcutils.py line 19/91) on a character list:
the pattern `^(?:\d{2}:)?\d{2}:\d{2}$` under Python `re.match` semantics.
Python's `$` (without `re.MULTILINE`) matches at the end of the string and
also just before one final newline, so `"12:34\n"` matches. -/
def durationPyMatchL : List Char → Bool
  | [a, b, c, d, e] =>
      a.isDigit && b.isDigit && (c == ':') && d.isDigit && e.isDigit
  | [a, b, c, d, e, f] =>
      a.isDigit && b.isDigit && (c == ':') && d.isDigit && e.isDigit && (f == '\n')
  | [a, b, c, d, e, f, g, h] =>
      a.isDigit && b.isDigit && (c == ':') && d.isDigit && e.isDigit && (f == ':')
        && g.isDigit && h.isDigit
  | [a, b, c, d, e, f, g, h, i] =>
      a.isDigit && b.isDigit && (c == ':') && d.isDigit && e.isDigit && (f == ':')
        && g.isDigit && h.isDigit && (i == '\n')
  | _ => false

/-- `DURATION_REGEX.match(dur)` as a predicate on strings. -/
def durationPyMatch (s : String) : Bool :=
  durationPyMatchL s.data

/-- The pattern `^(\d{2}:)?\d{2}:\d{2}$` read as an exact whole-string match,
which is how the specification states it: `DD:DD` or `DD:DD:DD` and nothing
else.  This is the claim-side reading, to be compared with `durationPyMatch`,
the code's actual `re.match` semantics. -/
def durationRegexExact (s : String) : Bool :=
  match s.data with
  | [a, b, c, d, e] =>
      a.isDigit && b.isDigit && (c == ':') && d.isDigit && e.isDigit
  | [a, b, c, d, e, f, g, h] =>
      a.isDigit && b.isDigit && (c == ':') && d.isDigit && e.isDigit && (f == ':')
        && g.isDigit && h.isDigit
  | _ => false

/-- `parse_duration` (mcutils.py lines 89-105): seconds from a human readable
duration.  Raises `ValueError` when the regex does not match; otherwise
splits on `:` and combines the parts (three parts are hours, minutes,
seconds; otherwise the first two parts are minutes and seconds). -/
def parse_duration (dur : String) : Except PyError Nat :=
  if durationPyMatch dur then
    let parts := splitColon dur.data
    if parts.length == 3 then do
      let p0 ← listGet parts 0
      let p1 ← listGet parts 1
      let p2 ← listGet parts 2
      .ok (pyIntL p0 * 60 * 60 + pyIntL p1 * 60 + pyIntL p2)
    else do
      let p0 ← listGet parts 0
      let p1 ← listGet parts 1
      .ok (pyIntL p0 * 60 + pyIntL p1)
  else
    .error (.valueError "Time passed does not match required format: `XX:XX` or `XX:XX:XX`")

/-- Decimal digits of `n`, most significant first (fuel-structured so that it
reduces in the kernel; the fuel argument strictly dominates the number of
digits). -/
def natDigitsAux : Nat → Nat → List Char
  | 0, _ => []
  | fuel + 1, n => if n == 0 then [] else natDigitsAux fuel (n / 10) ++ [Nat.digitChar (n % 10)]

/-- Python `str(n)` for a non-negative int. -/
def natRepr (n : Nat) : String :=
  if n == 0 then "0" else String.mk (natDigitsAux (n + 1) n)

/-- Python's format specifier `02` on an int (`f-string` fields
`{hours:02}` etc.): decimal text zero-padded to a minimum total width of 2,
the sign counting towards the width and the padding going between sign and
digits. -/
def pyFormat02 (n : Int) : String :=
  if n < 0 then
    "-" ++ natRepr n.natAbs
  else
    let s := natRepr n.toNat
    if s.length < 2 then "0" ++ s else s

/-- The argument type of `gen_duration`: the code accepts an int and, by the
`type(seconds) == float` branch, also a float (modelled as the rational it
denotes; `round` is exact on that value). -/
inductive PyNum where
  | int (n : Int)
  | float (q : Rat)

/-- Floor of a rational as an integer (`fdiv` by the positive denominator is
floor division). -/
def ratFloor (q : Rat) : Int :=
  q.num.fdiv (q.den : Int)

/-- Python `round(x)` on a float: round half to even (banker's rounding). -/
def pyRoundQ (q : Rat) : Int :=
  let f := ratFloor q
  if q - (f : Rat) < 1 / 2 then f
  else if (1 : Rat) / 2 < q - (f : Rat) then f + 1
  else if f % 2 = 0 then f else f + 1

/-- The body of `gen_duration` after the float branch has been resolved:
`divmod` twice (Python `divmod` with a positive divisor is floor
division/modulus, hence `Int.fdiv`/`Int.fmod`), then the two f-strings,
the long form when `hours` is truthy, i.e. nonzero. -/
def gen_duration_core (s : Int) : String :=
  let minutes := s.fdiv 60
  let seconds := s.fmod 60
  let hours := minutes.fdiv 60
  let minutes := minutes.fmod 60
  if hours = 0 then
    pyFormat02 minutes ++ ":" ++ pyFormat02 seconds
  else
    pyFormat02 hours ++ ":" ++ pyFormat02 minutes ++ ":" ++ pyFormat02 seconds

/-- `gen_duration` (mcutils.py lines 78-86): a human readable time from
seconds.  A float argument is first rounded (`seconds = round(seconds)`). -/
def gen_duration : PyNum → String
  | .int n => gen_duration_core n
  | .float q => gen_duration_core (pyRoundQ q)

/-! ### Classifier tables and the dict-iteration comprehensions

`get_name`, `is_catalog_id` and `get_type_from_catalog_id` all iterate with
`for x, y in TABLE` where `TABLE` is a `dict`.  Iterating a Python dict
yields its KEYS (strings), not its key/value pairs, so each key string is
tuple-unpacked into `(x, y)`: for any key whose length is not 2 this raises
`ValueError` at once, and for a 2-character key the unpack succeeds binding
two 1-character strings, after which the filter condition `y.search(...)` /
`y.match(...)` raises `AttributeError` because `str` has neither method.
The comprehension therefore raises on the first key whenever the table is
non-empty. -/

/-- The keys of `URL_REGEXES` (mcutils.py lines 50-62), in insertion order. -/
def URL_REGEXES_KEYS : List String :=
  ["Facebook", "SoundCloud", "Instagram", "YouTube", "Twitter", "Spotify",
   "Beatport", "iTunes", "Mixcloud", "Bandcamp", "Google Play"]

/-- The keys of `CATALOG_REGEXES` (mcutils.py lines 63-75), in insertion
order. -/
def CATALOG_REGEXES_KEYS : List String :=
  ["Album", "Best of Compilation", "Special Compilation",
   "5 Year Anniversary Track", "Call of the Wild", "Podcast",
   "Rocket League Album", "Long Play", "Extended Play", "Free Download",
   "Single"]

/-- The comprehension `[x for x, y in D if y.<attr>(...)]` over the keys of a
dict `D`, as CPython executes it.  `attr` is the method the filter would call
on `y` (`"search"` for `get_name`, `"match"` for the catalog functions). -/
def brokenDictComp (attr : String) : List String → Except PyError (List String)
  | [] => .ok []
  | k :: _ =>
    match k.data with
    | [] => .error (.valueError "not enough values to unpack (expected 2, got 0)")
    | [_] => .error (.valueError "not enough values to unpack (expected 2, got 1)")
    | [_, _] => .error (.attributeError ("'str' object has no attribute '" ++ attr ++ "'"))
    | _ => .error (.valueError "too many values to unpack (expected 2)")

/-- `get_type_from_catalog_id` (mcutils.py lines 125-132): builds the list
comprehension over `CATALOG_REGEXES` and returns its head, or `None`. -/
def get_type_from_catalog_id (id : String) : Except PyError (Option String) := do
  let type ← brokenDictComp "match" CATALOG_REGEXES_KEYS
  match type with
  | t :: _ => .ok (some t)
  | [] => .ok none

/-- `is_catalog_id` (mcutils.py lines 120-122): truthiness of the same
comprehension. -/
def is_catalog_id (id : String) : Except PyError Bool := do
  let hits ← brokenDictComp "match" CATALOG_REGEXES_KEYS
  .ok (!hits.isEmpty)

/-- One character of `[\da-z]` (ASCII model of `\d`). -/
def isCamChar (c : Char) : Bool :=
  c.isDigit || ('a' ≤ c && c ≤ 'z')

/-- Strip the optional `(?:https?://)?` prefix.  Committing to the longest
scheme is equivalent to regex backtracking here because a string starting
with a scheme cannot also start with the literal that follows. -/
def stripScheme (cs : List Char) : List Char :=
  if "https://".data.isPrefixOf cs then cs.drop 8
  else if "http://".data.isPrefixOf cs then cs.drop 7
  else cs

/-- Literal-prefix matcher: drop `p` from the head of `cs` or fail. -/
def dropLit (p : List Char) (cs : List Char) : Option (List Char) :=
  if p.isPrefixOf cs then some (cs.drop p.length) else none

/-- A non-empty maximal `[\da-z]+` run followed by the literal `p` (the run
class excludes every character of `/`-separated literals that follow, so the
maximal-munch scan is equivalent to regex backtracking). -/
def dropRunThen (p : List Char) (cs : List Char) : Option (List Char) :=
  let run := cs.takeWhile isCamChar
  if run.isEmpty then none else dropLit p (cs.drop run.length)

/-- `PERFORMANCE_HORIZON_REGEX.search(url)` (mcutils.py line 20): the pattern
`^(?:https?://)?prf.hn/click/camref:[\da-z]+/pubref:[\da-z]+/destination:.*$`.
The unescaped dot of `prf.hn` matches any character except a newline, and the
trailing `.*$` matches the remainder provided it contains no newline, except
possibly one final one. -/
def phSearch (url : String) : Bool :=
  match stripScheme url.data with
  | 'p' :: 'r' :: 'f' :: w :: rest =>
    (w != '\n') &&
    (match dropLit "hn/click/camref:".data rest with
     | none => false
     | some r1 =>
       match dropRunThen "/pubref:".data r1 with
       | none => false
       | some r2 =>
         match dropRunThen "/destination:".data r2 with
         | none => false
         | some r3 =>
           r3.all (· != '\n') ||
             (!r3.isEmpty && r3.dropLast.all (· != '\n') && r3.getLast? == some '\n'))
  | _ => false

/-- `PERFORMANCE_HORIZON_DEST_REGEX.search(url).group(1)` (mcutils.py lines
21/115): the text captured by `destination:(.*)$` — everything after the
first occurrence of `destination:` (the modelled URLs contain no newline, so
the line-oriented `$` is the end of the string).  When the text never
occurs, `.search` returns `None` and `.group` raises `AttributeError`. -/
def phDestGroup : List Char → Except PyError (List Char)
  | [] => .error (.attributeError "'NoneType' object has no attribute 'group'")
  | c :: cs =>
    if "destination:".data.isPrefixOf (c :: cs) then
      .ok ((c :: cs).drop 12)
    else
      phDestGroup cs

/-- Hex digit value, upper or lower case. -/
def hexVal (c : Char) : Option Nat :=
  if c.isDigit then some (c.toNat - 48)
  else if 'a' ≤ c && c ≤ 'f' then some (c.toNat - 87)
  else if 'A' ≤ c && c ≤ 'F' then some (c.toNat - 55)
  else none

/-- `urllib.parse.unquote` on the ASCII range: each `%XX` with two hex digits
becomes the character with that code, anything else is copied (multi-byte
UTF-8 percent sequences do not occur in the modelled data). -/
def pyUnquoteL : List Char → List Char
  | [] => []
  | '%' :: a :: b :: rest =>
    match hexVal a, hexVal b with
    | some x, some y => Char.ofNat (16 * x + y) :: pyUnquoteL rest
    | _, _ => '%' :: pyUnquoteL (a :: b :: rest)
  | c :: rest => c :: pyUnquoteL rest

/-- `get_name` (mcutils.py lines 108-117): formatted name for a social media
link.  Line 110 runs the broken dict comprehension over `URL_REGEXES`; only
if that produced a value would the Performance Horizon fallback and the
identity fallback be consulted. -/
def get_name (url : String) : Except PyError String := do
  let name ← brokenDictComp "search" URL_REGEXES_KEYS
  match name with
  | n :: _ => .ok n
  | [] =>
    if phSearch url then do
      let dest ← phDestGroup url.data
      .ok (String.mk (pyUnquoteL dest))
    else
      .ok url

/-! ### The tracklist segmenter

`TRACKLIST_REGEX` (mcutils.py line 18) is
`(?sm)(^(?:\d{2}:)?\d{2}:\d{2})\s(.*?)(?=(?:^\d{2}:\d{2}:\d{2}\s)|$)`.
`re.findall` scans left to right; at a line start it matches a two- or
three-field timestamp (the optional group is greedy, with backtracking to
the short form), one `\s` character, then the lazy `(.*?)` label, which
stops at the first position where the lookahead holds: a line start carrying
a three-field timestamp plus `\s`, or `(?m)$` — end of text or any position
directly before a newline.  Because the lazy scan already stops at a
newline, the label never crosses one unless the `\s` itself consumed it. -/

/-- The first alternative of the timestamp group: `\d{2}:\d{2}:\d{2}` at the
head of the list, returning the matched characters and the rest. -/
def matchTS8 : List Char → Option (List Char × List Char)
  | a :: b :: c :: d :: e :: f :: g :: h :: rest =>
    if a.isDigit && b.isDigit && (c == ':') && d.isDigit && e.isDigit && (f == ':')
        && g.isDigit && h.isDigit then
      some ([a, b, c, d, e, f, g, h], rest)
    else none
  | _ => none

/-- The backtracked alternative: `\d{2}:\d{2}` at the head of the list. -/
def matchTS5 : List Char → Option (List Char × List Char)
  | a :: b :: c :: d :: e :: rest =>
    if a.isDigit && b.isDigit && (c == ':') && d.isDigit && e.isDigit then
      some ([a, b, c, d, e], rest)
    else none
  | _ => none

/-- Does the list start with `\d{2}:\d{2}:\d{2}\s` (the lookahead's first
alternative)? -/
def startsTS8ws (cs : List Char) : Bool :=
  match cs with
  | a :: b :: c :: d :: e :: f :: g :: h :: w :: _ =>
    a.isDigit && b.isDigit && (c == ':') && d.isDigit && e.isDigit && (f == ':')
      && g.isDigit && h.isDigit && pyWs w
  | _ => false

/-- The lazy label scan `(.*?)(?=(?:^\d{2}:\d{2}:\d{2}\s)|$)`: consume
characters until the first position satisfying the lookahead, returning the
label, the unconsumed rest and whether the stop position is a line start
(used to resume the overall scan). -/
def scanLabel (atLS : Bool) : List Char → List Char × List Char × Bool
  | [] => ([], [], false)
  | c :: cs =>
    if c == '\n' then ([], c :: cs, atLS)
    else if atLS && startsTS8ws (c :: cs) then ([], c :: cs, true)
    else
      let (l, r, b) := scanLabel false cs
      (c :: l, r, b)

/-- After a matched timestamp `ts`, require one `\s` character and scan the
label; yields the `(timestamp, label)` pair of `findall` (the two regex
groups), the rest of the text and the line-start flag at the resume
position. -/
def afterTS (ts : List Char) (rest : List Char) :
    Option ((String × String) × List Char × Bool) :=
  match rest with
  | w :: rest2 =>
    if pyWs w then
      let (label, r, b) := scanLabel (w == '\n') rest2
      some ((String.mk ts, String.mk label), r, b)
    else none
  | [] => none

/-- Try the full tracklist pattern anchored at a line start: the greedy
optional timestamp group (three fields first, backtracking to two), one
`\s`, then the lazy label. -/
def matchTrackAt (cs : List Char) : Option ((String × String) × List Char × Bool) :=
  match matchTS8 cs with
  | some (ts, rest) =>
    match afterTS ts rest with
    | some out => some out
    | none =>
      match matchTS5 cs with
      | some (ts5, rest5) => afterTS ts5 rest5
      | none => none
  | none =>
    match matchTS5 cs with
    | some (ts5, rest5) => afterTS ts5 rest5
    | none => none

/-- `TRACKLIST_REGEX.findall` scanning loop.  `atLS` records whether the
current position is a line start (position 0 or directly after a newline);
a successful match consumes at least six characters, so fuel equal to the
text length suffices and the fuel never runs out. -/
def findallAux : Nat → Bool → List Char → List (String × String)
  | 0, _, _ => []
  | _ + 1, _, [] => []
  | fuel + 1, atLS, c :: cs =>
    match (if atLS then matchTrackAt (c :: cs) else none) with
    | some (pair, rest, b) => pair :: findallAux fuel b rest
    | none => findallAux fuel (c == '\n') cs

/-- `TRACKLIST_REGEX.findall(description)` (mcutils.py line 497). -/
def tracklistFindall (description : String) : List (String × String) :=
  findallAux (description.data.length + 1) true description.data

/-- `MCLongSource.set_yt_data` (mcutils.py lines 496-509), as a function of
the description text it segments.  Line 497 extracts the `(timestamp,
label)` pairs, line 498 decodes each timestamp with `parse_duration`, and
line 504 then iterates `tracks.values()` — but `tracks` is a LIST, which
has no attribute `values`, so the loop header raises `AttributeError`
unconditionally (the earlier assignments at lines 501-502 touch only
`self.url` and the empty `self.tracks` dict).  The declared result type is
the segment list the loop would have built. -/
def set_yt_data (description : String) : Except PyError (List (Nat × String)) := do
  let tracks := tracklistFindall description
  let _decoded ← tracks.mapM (fun p => do
    let n ← parse_duration p.1
    pure (n, p.2))
  .error (.attributeError "'list' object has no attribute 'values'")

/-! ### ConnectGetter.get_artist — the pre-network validation prefix -/

/-- `BASE_URI` (mcutils.py line 12). -/
def BASE_URI : String := "https://connect.monstercat.com/api"

/-- Python `str.lower` on the ASCII range. -/
def pyLower (s : String) : String :=
  String.mk (s.data.map Char.toLower)

/-- Is a character kept verbatim by `urllib.parse.quote` with the default
`safe='/'`: unreserved characters `A-Z a-z 0-9 _ . - ~` plus `/`. -/
def quoteSafe (c : Char) : Bool :=
  c.isAlpha || c.isDigit || c == '_' || c == '.' || c == '-' || c == '~' || c == '/'

/-- One uppercase hex digit. -/
def hexDigitChar (n : Nat) : Char :=
  if n < 10 then Char.ofNat (48 + n) else Char.ofNat (55 + n)

/-- `urllib.parse.quote` on the ASCII range: percent-encode everything that
is not safe. -/
def pyQuote (s : String) : String :=
  String.mk (s.data.foldr
    (fun c acc =>
      if quoteSafe c then c :: acc
      else '%' :: hexDigitChar (c.toNat / 16) :: hexDigitChar (c.toNat % 16) :: acc)
    [])

/-- Python `str.replace` scanning loop: replace each non-overlapping
occurrence of `pat`, left to right (fuel-structured so that it reduces in
the kernel; one character is consumed per step, so fuel equal to the text
length suffices; the call sites only use non-empty patterns). -/
def pyReplaceFuel (pat rep : List Char) : Nat → List Char → List Char
  | 0, cs => cs
  | _ + 1, [] => []
  | fuel + 1, c :: cs =>
    if pat.isPrefixOf (c :: cs) && !pat.isEmpty then
      rep ++ pyReplaceFuel pat rep fuel (cs.drop (pat.length - 1))
    else c :: pyReplaceFuel pat rep fuel cs

/-- Python `s.replace(pat, rep)` for a non-empty pattern. -/
def pyReplace (s pat rep : String) : String :=
  String.mk (pyReplaceFuel pat.data rep.data (s.data.length + 1) s.data)

/-- What the modelled slice of `get_artist` does before any `await`: either
raise, or issue its first HTTP request at the returned URL. -/
inductive NetStep where
  | raiseErr (e : PyError)
  | request (url : String)
deriving DecidableEq

/-- `ConnectGetter.get_artist` (mcutils.py lines 267-275) up to its first
network call.  Line 269 (`if type(search) != str`) cannot fire because the
modelled domain is `str`.  Line 271 reads `elif not str:` — `str` there is
the BUILTIN TYPE OBJECT, not the argument, and a class object is always
truthy, so `not str` is `False` for every input and the empty-search guard
never fires; the code proceeds to build the slug (line 274) and issue the
request (line 277). -/
def get_artist_first_step (search : String) : NetStep :=
  let strTruthy := true
  if !strTruthy then
    .raiseErr (.valueError "Nothing to search.")
  else
    let artist := pyQuote (pyReplace (pyReplace (pyLower search) " & " "-") " " "-")
    .request (BASE_URI ++ "/catalog/artist/" ++ artist)

/-! ### The streaming source classes -/

/-- `MULTI_TYPES` (mcutils.py line 15). -/
def MULTI_TYPES : List String := ["Album", "EP"]

/-- `LONG_TYPES` (mcutils.py line 16). -/
def LONG_TYPES : List String := ["Mixes", "Podcast"]

/-- The result of `datetime.strptime(..., '%Y-%m-%dT%H:%M:%S.%fZ')`. -/
structure PyDateTime where
  year : Nat
  month : Nat
  day : Nat
  hour : Nat
  minute : Nat
  second : Nat
  microsecond : Nat
deriving DecidableEq

/-- Read exactly `k` decimal digits into an accumulator. -/
def readDigits : Nat → Nat → List Char → Option (Nat × List Char)
  | 0, acc, cs => some (acc, cs)
  | k + 1, acc, c :: cs =>
    if c.isDigit then readDigits k (acc * 10 + (c.toNat - 48)) cs else none
  | _ + 1, _, [] => none

/-- Require a literal character. -/
def readLit (c : Char) : List Char → Option (List Char)
  | c' :: cs => if c' == c then some cs else none
  | [] => none

/-- `%f`: one to six digits, greedy, value scaled to microseconds. -/
def readFrac (cs : List Char) : Option (Nat × List Char) :=
  let ds := (cs.takeWhile Char.isDigit).take 6
  if ds.isEmpty then none
  else some (digitsVal ds * 10 ^ (6 - ds.length), cs.drop ds.length)

/-- `datetime.strptime(text, '%Y-%m-%dT%H:%M:%S.%fZ')` (mcutils.py lines
397/488), for the zero-padded field widths the Connect service emits;
raises `ValueError` on any other shape or an out-of-range field. -/
def pyStrptime (text : String) : Except PyError PyDateTime :=
  let parsed : Option PyDateTime := do
    let (y, r) ← readDigits 4 0 text.data
    let r ← readLit '-' r
    let (mo, r) ← readDigits 2 0 r
    let r ← readLit '-' r
    let (d, r) ← readDigits 2 0 r
    let r ← readLit 'T' r
    let (h, r) ← readDigits 2 0 r
    let r ← readLit ':' r
    let (mi, r) ← readDigits 2 0 r
    let r ← readLit ':' r
    let (sec, r) ← readDigits 2 0 r
    let r ← readLit '.' r
    let (f, r) ← readFrac r
    let r ← readLit 'Z' r
    if r.isEmpty && 1 ≤ mo && mo ≤ 12 && 1 ≤ d && d ≤ 31 && h ≤ 23 && mi ≤ 59
        && sec ≤ 61 then
      some ⟨y, mo, d, h, mi, sec, f⟩
    else none
  match parsed with
  | some dt => .ok dt
  | none =>
    .error (.valueError ("time data '" ++ text ++ "' does not match format '%Y-%m-%dT%H:%M:%S.%fZ'"))

/-- One entry of a track's `albums` list. -/
structure TrackAlbumRef where
  streamHash : String
  albumId : String
deriving DecidableEq

/-- The slice of a Connect track record read by the modelled code: `albums`,
`bpm`, `duration` (float seconds), optional `genre` and the `genres` list. -/
structure ConnectTrack where
  albums : List TrackAlbumRef
  bpm : Rat
  duration : Rat
  genre : Option String
  genres : List String
deriving DecidableEq

/-- The slice of a Connect release record read by the modelled code. -/
structure ConnectRelease where
  type : String
  releaseDate : String
  title : String
  renderedArtists : String
  coverUrl : String
  urls : List String
deriving DecidableEq

/-- `track.get('genre') or track['genres'][0]` (mcutils.py line 403): the
`or` falls through on a missing key and also on a falsy (empty) string,
and the fallback indexes `genres`, raising `IndexError` when it is empty. -/
def trackGenre (t : ConnectTrack) : Except PyError String :=
  match t.genre with
  | some g => if g == "" then listGet t.genres 0 else .ok g
  | none => listGet t.genres 0

/-- Modelled from the spec: the external decodable audio handle
(`discord.FFmpegPCMAudio`), an excluded collaborator per §1 of the spec.
Its `cleanup` terminates the decoder process; discord.py's implementation
tolerates repeated calls, so the model's release never raises. -/
structure ExtAudio where
  url : String
  cleaned : Bool
deriving DecidableEq

/-- Release of the external decode resource (idempotent, never raises). -/
def extCleanup (a : ExtAudio) : ExtAudio :=
  { a with cleaned := true }

/-- The mutable attribute state of an `MCSingleSource`.  Attributes that the
Python code only creates later (`url`, `stream_url`, ..., `source`) are
`Option`s, `none` meaning the attribute does not exist yet. -/
structure MCSingleState where
  track : String
  has_connect_data : Bool := false
  data : Option ConnectRelease := none
  url : Option String := none
  stream_url : Option String := none
  release_date : Option PyDateTime := none
  title : Option String := none
  artists : Option String := none
  thumb : Option String := none
  bpm : Option Int := none
  duration : Option Int := none
  genre : Option String := none
  source : Option ExtAudio := none
deriving DecidableEq

/-- The YouTube pattern of mcutils.py lines 373-374:
`^(?:https?://)?(?:www\.)?youtube\.com`, used with `re.search` (anchored by
its own `^`).  Committed prefix-stripping is equivalent to the regex's
backtracking because the alternatives exclude each other. -/
def ytSearch (u : String) : Bool :=
  let u1 := stripScheme u.data
  let u2 := if "www.".data.isPrefixOf u1 then u1.drop 4 else u1
  "youtube.com".data.isPrefixOf u2

/-- `MCSingleSource.set_connect_data` (mcutils.py lines 388-404): the type
guard first (multi-track releases, then long-form releases), then the
attribute assignments in source order. -/
def MCSingleSource.set_connect_data (st : MCSingleState) (data : ConnectRelease)
    (tracks : List ConnectTrack) : Except PyError MCSingleState :=
  if MULTI_TYPES.contains data.type then
    .error (.valueError
      "Release detected to be an album, or album-like. Please use MCMultiSource.")
  else if LONG_TYPES.contains data.type then
    .error (.valueError "Release detected to be long. Please use MCLongSource.")
  else do
  let track ← listGet tracks 0
  let alb ← listGet track.albums 0
  let rdate ← pyStrptime data.releaseDate
  let genre ← trackGenre track
  Except.ok { st with
    stream_url := some ("https://s3.amazonaws.com/data.monstercat.com/blobs/" ++ alb.streamHash),
    release_date := some rdate,
    title := some data.title,
    artists := some data.renderedArtists,
    thumb := some (pyReplace data.coverUrl " " "%20" ++ "?image_width=256"),
    bpm := some (pyRoundQ track.bpm),
    duration := some (pyRoundQ track.duration),
    genre := some genre,
    has_connect_data := true }

/-- One result object of the external media lookup (`youtube_dl`): the
fields the code reads. -/
structure YtResult where
  webpage_url : String
  description : String
deriving DecidableEq

/-- The raw return value of `yt.extract_info`: either a plain result or a
playlist-shaped container keyed `entries`. -/
inductive YtData where
  | plain (r : YtResult)
  | entries (rs : List YtResult)
deriving DecidableEq

/-- The `if 'entries' in data: data = data['entries'][0]` unwrap (mcutils.py
lines 383-384). -/
def unwrapYt : YtData → Except PyError YtResult
  | .plain r => .ok r
  | .entries rs => listGet rs 0

/-- `MCSingleSource.get_info` (mcutils.py lines 365-386).  The two awaited
external effects are oracle arguments: `fetch` is what
`ConnectGetter().get_release(self.track)` would produce, `yt` what the
`youtube_dl` executor call would produce.  When connect data is already
present the fetch is skipped; then, when no `url` attribute exists, a
YouTube link embedded in the release's `urls` is preferred (deleting
`_data`), falling back to the media lookup. -/
def MCSingleSource.get_info (st : MCSingleState)
    (fetch : Except PyError (ConnectRelease × List ConnectTrack))
    (yt : Except PyError YtData) : Except PyError MCSingleState := do
  let st ←
    if st.has_connect_data then
      Except.ok st
    else do
      let pr ← fetch
      let st := { st with data := some pr.1 }
      MCSingleSource.set_connect_data st pr.1 pr.2
  if st.url.isSome then
    Except.ok st
  else
    let ytMatches := (st.data.map (fun d => d.urls.filter ytSearch)).getD []
    if st.data.isSome && !ytMatches.isEmpty then
      Except.ok { st with url := ytMatches.head?, data := none }
    else do
      let d0 ← yt
      let r ← unwrapYt d0
      Except.ok { st with url := some r.webpage_url }

/-- `MCSingleSource.load` (mcutils.py lines 406-407): binds the decode
resource to `self.stream_url`; reading a never-assigned attribute raises
`AttributeError`. -/
def MCSingleSource.load (st : MCSingleState) : Except PyError MCSingleState :=
  match st.stream_url with
  | none => .error (.attributeError "'MCSingleSource' object has no attribute 'stream_url'")
  | some u => .ok { st with source := some { url := u, cleaned := false } }

/-- `MCSingleSource.cleanup` (mcutils.py lines 412-413): delegates to
`self.source.cleanup()`; before `load` has run there is no `source`
attribute and the access itself raises `AttributeError`. -/
def MCSingleSource.cleanup (st : MCSingleState) : Except PyError MCSingleState :=
  match st.source with
  | none => .error (.attributeError "'MCSingleSource' object has no attribute 'source'")
  | some a => .ok { st with source := some (extCleanup a) }

/-- The lifecycle attribute state of an `MCLongSource` (the fields the
modelled operations touch). -/
structure MCLongState where
  track : String
  has_connect_data : Bool := false
  has_yt_data : Bool := false
  stream_url : Option String := none
  url : Option String := none
  source : Option ExtAudio := none
deriving DecidableEq

/-- `MCLongSource.load` (mcutils.py lines 511-512). -/
def MCLongSource.load (st : MCLongState) : Except PyError MCLongState :=
  match st.stream_url with
  | none => .error (.attributeError "'MCLongSource' object has no attribute 'stream_url'")
  | some u => .ok { st with source := some { url := u, cleaned := false } }

/-- `MCLongSource.cleanup` (mcutils.py lines 522-523): identical delegation
to `self.source.cleanup()`. -/
def MCLongSource.cleanup (st : MCLongState) : Except PyError MCLongState :=
  match st.source with
  | none => .error (.attributeError "'MCLongSource' object has no attribute 'source'")
  | some a => .ok { st with source := some (extCleanup a) }

/-- The spec's `WrongSourceTypeError` ("release shape does not match the
chosen StreamingSource variant"): in the code it is the `ValueError` raised
by one of the two type-guard branches of
`MCSingleSource.set_connect_data`. -/
def IsWrongSourceTypeError (e : PyError) : Prop :=
  e = .valueError "Release detected to be an album, or album-like. Please use MCMultiSource." ∨
  e = .valueError "Release detected to be long. Please use MCLongSource."

/-! ## Supporting lemmas -/

theorem pad2_data : ∀ n : Nat, n < 100 →
    (pyFormat02 (Int.ofNat n)).data = [Nat.digitChar (n / 10), Nat.digitChar (n % 10)] := by
  decide

theorem digitChar_isDigit : ∀ d : Nat, d < 10 → (Nat.digitChar d).isDigit = true := by decide

theorem digitChar_ne_colon : ∀ d : Nat, d < 10 → ((Nat.digitChar d) == ':') = false := by decide

theorem digitChar_not_ws : ∀ d : Nat, d < 10 → pyWs (Nat.digitChar d) = false := by decide

theorem digitChar_toNat : ∀ d : Nat, d < 10 → (Nat.digitChar d).toNat = 48 + d := by decide

theorem fdiv_ofNat (m n : Nat) : (Int.ofNat m).fdiv (Int.ofNat n) = Int.ofNat (m / n) :=
  (Int.ofNat_fdiv m n).symm

theorem fmod_ofNat (m n : Nat) : (Int.ofNat m).fmod (Int.ofNat n) = Int.ofNat (m % n) :=
  (Int.ofNat_fmod m n).symm

theorem fdiv_ofNat60 (m : Nat) : (Int.ofNat m).fdiv 60 = Int.ofNat (m / 60) :=
  fdiv_ofNat m 60

theorem fmod_ofNat60 (m : Nat) : (Int.ofNat m).fmod 60 = Int.ofNat (m % 60) :=
  fmod_ofNat m 60

theorem str_data_append (a b : String) : (a ++ b).data = a.data ++ b.data := by
  cases a; cases b; rfl

theorem splitColon_pair (c1 c2 c3 c4 : Char)
    (h1 : (c1 == ':') = false) (h2 : (c2 == ':') = false)
    (h3 : (c3 == ':') = false) (h4 : (c4 == ':') = false) :
    splitColon [c1, c2, ':', c3, c4] = [[c1, c2], [c3, c4]] := by
  simp [splitColon, splitColonAux, h1, h2, h3, h4]

theorem splitColon_triple (c1 c2 c3 c4 c5 c6 : Char)
    (h1 : (c1 == ':') = false) (h2 : (c2 == ':') = false)
    (h3 : (c3 == ':') = false) (h4 : (c4 == ':') = false)
    (h5 : (c5 == ':') = false) (h6 : (c6 == ':') = false) :
    splitColon [c1, c2, ':', c3, c4, ':', c5, c6] = [[c1, c2], [c3, c4], [c5, c6]] := by
  simp [splitColon, splitColonAux, h1, h2, h3, h4, h5, h6]

theorem pyIntL_pair (c1 c2 : Char) (h1 : pyWs c1 = false) (h2 : pyWs c2 = false) :
    pyIntL [c1, c2] = (c1.toNat - 48) * 10 + (c2.toNat - 48) := by
  simp [pyIntL, digitsVal, List.dropWhile, h1, h2]

theorem parse_two_pairs (A B : Nat) (hA : A < 100) (hB : B < 100) :
    parse_duration (pyFormat02 (Int.ofNat A) ++ ":" ++ pyFormat02 (Int.ofNat B)) =
      .ok (A * 60 + B) := by
  have hA1 : A / 10 < 10 := by omega
  have hA2 : A % 10 < 10 := by omega
  have hB1 : B / 10 < 10 := by omega
  have hB2 : B % 10 < 10 := by omega
  have hdata : (pyFormat02 (Int.ofNat A) ++ ":" ++ pyFormat02 (Int.ofNat B)).data =
      [Nat.digitChar (A / 10), Nat.digitChar (A % 10), ':',
       Nat.digitChar (B / 10), Nat.digitChar (B % 10)] := by
    rw [str_data_append, str_data_append, pad2_data A hA, pad2_data B hB]
    rfl
  have hmatch : durationPyMatchL [Nat.digitChar (A / 10), Nat.digitChar (A % 10), ':',
       Nat.digitChar (B / 10), Nat.digitChar (B % 10)] = true := by
    simp [durationPyMatchL, digitChar_isDigit _ hA1, digitChar_isDigit _ hA2,
          digitChar_isDigit _ hB1, digitChar_isDigit _ hB2]
  have hsplit := splitColon_pair _ _ _ _ (digitChar_ne_colon _ hA1) (digitChar_ne_colon _ hA2)
      (digitChar_ne_colon _ hB1) (digitChar_ne_colon _ hB2)
  rw [parse_duration, durationPyMatch, hdata, hmatch, if_pos rfl]
  rw [hsplit]
  simp only [List.length, listGet, Except.bind]
  rw [show ((2 : Nat) == 3) = false from rfl]
  simp only [Bool.false_eq_true, if_false, bind, Except.bind]
  rw [pyIntL_pair _ _ (digitChar_not_ws _ hA1) (digitChar_not_ws _ hA2),
      pyIntL_pair _ _ (digitChar_not_ws _ hB1) (digitChar_not_ws _ hB2),
      digitChar_toNat _ hA1, digitChar_toNat _ hA2, digitChar_toNat _ hB1,
      digitChar_toNat _ hB2]
  congr 1
  omega

theorem parse_three_pairs (H A B : Nat) (hH : H < 100) (hA : A < 100) (hB : B < 100) :
    parse_duration (pyFormat02 (Int.ofNat H) ++ ":" ++ pyFormat02 (Int.ofNat A) ++ ":"
        ++ pyFormat02 (Int.ofNat B)) = .ok (H * 60 * 60 + A * 60 + B) := by
  have hH1 : H / 10 < 10 := by omega
  have hH2 : H % 10 < 10 := by omega
  have hA1 : A / 10 < 10 := by omega
  have hA2 : A % 10 < 10 := by omega
  have hB1 : B / 10 < 10 := by omega
  have hB2 : B % 10 < 10 := by omega
  have hdata : (pyFormat02 (Int.ofNat H) ++ ":" ++ pyFormat02 (Int.ofNat A) ++ ":"
        ++ pyFormat02 (Int.ofNat B)).data =
      [Nat.digitChar (H / 10), Nat.digitChar (H % 10), ':',
       Nat.digitChar (A / 10), Nat.digitChar (A % 10), ':',
       Nat.digitChar (B / 10), Nat.digitChar (B % 10)] := by
    rw [str_data_append, str_data_append, str_data_append, str_data_append,
        pad2_data H hH, pad2_data A hA, pad2_data B hB]
    rfl
  have hmatch : durationPyMatchL [Nat.digitChar (H / 10), Nat.digitChar (H % 10), ':',
       Nat.digitChar (A / 10), Nat.digitChar (A % 10), ':',
       Nat.digitChar (B / 10), Nat.digitChar (B % 10)] = true := by
    simp [durationPyMatchL, digitChar_isDigit _ hH1, digitChar_isDigit _ hH2,
          digitChar_isDigit _ hA1, digitChar_isDigit _ hA2,
          digitChar_isDigit _ hB1, digitChar_isDigit _ hB2]
  have hsplit := splitColon_triple _ _ _ _ _ _ (digitChar_ne_colon _ hH1)
      (digitChar_ne_colon _ hH2) (digitChar_ne_colon _ hA1) (digitChar_ne_colon _ hA2)
      (digitChar_ne_colon _ hB1) (digitChar_ne_colon _ hB2)
  rw [parse_duration, durationPyMatch, hdata, hmatch, if_pos rfl]
  rw [hsplit]
  simp only [List.length, listGet, Except.bind]
  rw [show ((3 : Nat) == 3) = true from rfl]
  simp only [if_true, bind, Except.bind]
  rw [pyIntL_pair _ _ (digitChar_not_ws _ hH1) (digitChar_not_ws _ hH2),
      pyIntL_pair _ _ (digitChar_not_ws _ hA1) (digitChar_not_ws _ hA2),
      pyIntL_pair _ _ (digitChar_not_ws _ hB1) (digitChar_not_ws _ hB2),
      digitChar_toNat _ hH1, digitChar_toNat _ hH2, digitChar_toNat _ hA1,
      digitChar_toNat _ hA2, digitChar_toNat _ hB1, digitChar_toNat _ hB2]
  congr 1
  omega

theorem bind_then_error {α β : Type} (x : Except PyError α) (e0 : PyError) :
    ∃ e, (x >>= fun _ => (Except.error e0 : Except PyError β)) = .error e := by
  cases x with
  | error e => exact ⟨e, rfl⟩
  | ok v => exact ⟨e0, rfl⟩

/-! ## Claim theorems -/

/-- C1: the classifier is claimed pure and total with `classify("MC025") =
Album` etc., but `get_type_from_catalog_id` iterates the `CATALOG_REGEXES`
dict without `.items()`, so the first key `"Album"` is tuple-unpacked into
two variables and every call — `"MC025"`, `"MCEP014"`, `"not-an-id"` alike —
raises `ValueError: too many values to unpack (expected 2)`. -/
theorem get_type_from_catalog_id_always_raises (id : String) :
    get_type_from_catalog_id id =
      .error (.valueError "too many values to unpack (expected 2)") := rfl

/-- C2: for every non-negative `s < 360000`,
`parse_duration (gen_duration s) = s`. -/
theorem duration_roundtrip (s : Nat) (h : s < 360000) :
    parse_duration (gen_duration (PyNum.int (Int.ofNat s))) = .ok s := by
  have core : gen_duration (PyNum.int (Int.ofNat s)) = gen_duration_core (Int.ofNat s) := rfl
  rw [core]
  unfold gen_duration_core
  simp only [fdiv_ofNat60, fmod_ofNat60]
  by_cases hz : s / 60 / 60 = 0
  · have hcond : Int.ofNat (s / 60 / 60) = 0 := by rw [hz]; rfl
    rw [if_pos hcond]
    rw [parse_two_pairs (s / 60 % 60) (s % 60) (by omega) (by omega)]
    congr 1
    omega
  · have hcond : ¬ Int.ofNat (s / 60 / 60) = 0 := fun hh => hz (Int.ofNat_eq_zero.mp hh)
    rw [if_neg hcond]
    rw [parse_three_pairs (s / 60 / 60) (s / 60 % 60) (s % 60) (by omega) (by omega) (by omega)]
    congr 1
    omega

/-- Witness for C2 at `s = 3705` (encoded as `"01:01:45"`). -/
theorem duration_roundtrip_witness :
    3705 < 360000 ∧
      parse_duration (gen_duration (PyNum.int (Int.ofNat 3705))) = .ok 3705 :=
  ⟨by decide, duration_roundtrip 3705 (by decide)⟩

/-- C3 counterexample: `"12:34\n"` does NOT match the pattern as an exact
whole-string match, yet `parse_duration` returns `754` instead of failing:
Python's `$` accepts the single trailing newline and `int("34\n")` strips
it. -/
theorem parse_duration_nonmatch_counterexample :
    durationRegexExact "12:34\n" = false ∧ parse_duration "12:34\n" = .ok 754 :=
  ⟨rfl, rfl⟩

/-- C3 amended: for every string that does not match the pattern under
Python `re.match` semantics — i.e. that is not `DD:DD` or `DD:DD:DD`
optionally followed by one final newline — `parse_duration` fails with the
`ValueError` carrying the format message. -/
theorem parse_duration_fails_on_unmatched (s : String)
    (h : durationPyMatch s = false) :
    parse_duration s =
      .error (.valueError "Time passed does not match required format: `XX:XX` or `XX:XX:XX`") := by
  rw [parse_duration, h]
  rfl

/-- Witness for the amended C3 at `"not-a-duration"`. -/
theorem parse_duration_fails_on_unmatched_witness :
    durationPyMatch "not-a-duration" = false ∧
      parse_duration "not-a-duration" =
        .error (.valueError "Time passed does not match required format: `XX:XX` or `XX:XX:XX`") :=
  ⟨rfl, parse_duration_fails_on_unmatched "not-a-duration" rfl⟩

/-- C4: `get_name` is claimed to return `"YouTube"` for a YouTube URL, the
decoded destination for a prf.hn URL, and the input otherwise; in fact line
110 iterates the `URL_REGEXES` dict without `.items()`, so the first key
`"Facebook"` fails tuple unpacking and every call raises `ValueError`
before any pattern is consulted. -/
theorem get_name_always_raises (url : String) :
    get_name url = .error (.valueError "too many values to unpack (expected 2)") := rfl

/-- C5: on the three-line example description the regex pass does extract
the three `(timestamp, label)` pairs in source order, but `set_yt_data`
then raises `AttributeError` at the `tracks.values()` loop header instead
of producing the three segments the claim describes. -/
theorem set_yt_data_example_raises :
    tracklistFindall "00:00 Intro\n03:15 Track A\n07:40 Track B" =
      [("00:00", "Intro"), ("03:15", "Track A"), ("07:40", "Track B")] ∧
    set_yt_data "00:00 Intro\n03:15 Track A\n07:40 Track B" =
      .error (.attributeError "'list' object has no attribute 'values'") :=
  ⟨rfl, rfl⟩

/-- C6: the segmenter is claimed to return an empty segment sequence without
raising whenever no line matches; in fact `set_yt_data` never returns a
value for ANY description (so in particular not for the non-matching ones):
the `tracks.values()` attribute access on a list raises first. -/
theorem set_yt_data_never_returns (description : String) :
    ∃ e, set_yt_data description = .error e :=
  bind_then_error _ _

/-- C7: for every release record whose `type` is in `MULTI_TYPES` or
`LONG_TYPES`, `get_info` on an `MCSingleSource` that still has to resolve
its catalog data fails with the spec's `WrongSourceTypeError` (the type
guard of `set_connect_data`), never silently succeeding. -/
theorem single_source_type_guard (st : MCSingleState) (data : ConnectRelease)
    (tracks : List ConnectTrack) (yt : Except PyError YtData)
    (hnc : st.has_connect_data = false)
    (hty : data.type ∈ MULTI_TYPES ∨ data.type ∈ LONG_TYPES) :
    ∃ e, MCSingleSource.get_info st (.ok (data, tracks)) yt = .error e ∧
      IsWrongSourceTypeError e := by
  rcases hty with hm | hl
  · refine ⟨.valueError "Release detected to be an album, or album-like. Please use MCMultiSource.",
      ?_, Or.inl rfl⟩
    simp [MCSingleSource.get_info, MCSingleSource.set_connect_data, hnc, hm, bind, Except.bind]
  · have h2 : data.type = "Mixes" ∨ data.type = "Podcast" := by
      simpa [LONG_TYPES] using hl
    have hnm : data.type ∉ MULTI_TYPES := by
      rcases h2 with h | h <;> rw [h] <;> decide
    refine ⟨.valueError "Release detected to be long. Please use MCLongSource.",
      ?_, Or.inr rfl⟩
    simp [MCSingleSource.get_info, MCSingleSource.set_connect_data, hnc, hnm, hl, bind, Except.bind]

/-- Witness for C7: a release of type `"Album"` over a fresh source. -/
theorem single_source_type_guard_witness :
    ∃ e, MCSingleSource.get_info { track := "some search" }
        (.ok ({ type := "Album", releaseDate := "2017-01-13T00:00:00.000Z",
                title := "T", renderedArtists := "A", coverUrl := "c", urls := [] }, []))
        (.error (.valueError "unused")) = .error e ∧
      IsWrongSourceTypeError e :=
  single_source_type_guard _ _ _ _ rfl (Or.inl (by decide))

/-- C8 counterexample: on a freshly constructed `MCSingleSource` on which
`load` was never called there is no `source` attribute, so `cleanup` raises
`AttributeError` instead of being the safe no-op the claim states. -/
theorem cleanup_before_load_raises :
    MCSingleSource.cleanup { track := "x" } =
      .error (.attributeError "'MCSingleSource' object has no attribute 'source'") := rfl

/-- C8 amended: once `load` has bound the decode resource, `cleanup` twice
in a row succeeds for both source variants (the underlying handle's release
is idempotent); but whenever `load` was never reached, `cleanup` raises
`AttributeError` rather than being a no-op. -/
theorem cleanup_idempotent_after_load (st : MCSingleState) (lt : MCLongState) :
    (∀ a, st.source = some a →
      ∃ st1 st2, MCSingleSource.cleanup st = .ok st1 ∧ MCSingleSource.cleanup st1 = .ok st2) ∧
    (st.source = none →
      MCSingleSource.cleanup st =
        .error (.attributeError "'MCSingleSource' object has no attribute 'source'")) ∧
    (∀ a, lt.source = some a →
      ∃ lt1 lt2, MCLongSource.cleanup lt = .ok lt1 ∧ MCLongSource.cleanup lt1 = .ok lt2) ∧
    (lt.source = none →
      MCLongSource.cleanup lt =
        .error (.attributeError "'MCLongSource' object has no attribute 'source'")) := by
  refine ⟨fun a ha => ?_, fun ha => ?_, fun a ha => ?_, fun ha => ?_⟩
  · refine ⟨{ st with source := some (extCleanup a) },
      { st with source := some (extCleanup (extCleanup a)) }, ?_, ?_⟩
    · rw [MCSingleSource.cleanup, ha]
    · rw [MCSingleSource.cleanup]
  · rw [MCSingleSource.cleanup, ha]
  · refine ⟨{ lt with source := some (extCleanup a) },
      { lt with source := some (extCleanup (extCleanup a)) }, ?_, ?_⟩
    · rw [MCLongSource.cleanup, ha]
    · rw [MCLongSource.cleanup]
  · rw [MCLongSource.cleanup, ha]

/-- Witness for the amended C8: cleanup twice on a loaded single source. -/
theorem cleanup_idempotent_after_load_witness :
    ∃ st1 st2,
      MCSingleSource.cleanup { track := "x", source := some { url := "u", cleaned := false } } =
        .ok st1 ∧
      MCSingleSource.cleanup st1 = .ok st2 :=
  (cleanup_idempotent_after_load { track := "x", source := some { url := "u", cleaned := false } }
    { track := "y" }).1 { url := "u", cleaned := false } rfl

/-- C9: `get_artist` is claimed to fail with `ValidationError` on an empty
query before any network call; in fact line 271 tests `not str` — the
truthiness of the builtin type object, not of the argument — which is
always `False`, so the guard never fires and the empty query (like every
query) proceeds straight to the first HTTP request. -/
theorem get_artist_empty_search_proceeds :
    get_artist_first_step "" =
      NetStep.request "https://connect.monstercat.com/api/catalog/artist/" ∧
    ∀ search, ∃ u, get_artist_first_step search = NetStep.request u :=
  ⟨rfl, fun _ => ⟨_, rfl⟩⟩

/-- C10: `gen_duration` accepts a float at its public interface and rounds
it (Python's banker's rounding) to an integer before formatting, so
encoding a float equals encoding its rounding as an int. -/
theorem gen_duration_float_rounds (q : Rat) :
    gen_duration (PyNum.float q) = gen_duration (PyNum.int (pyRoundQ q)) := rfl
